import Mathlib

/-!
Verification of the offline data synchronization core of the BlackBottle
local-api repository: a shallow embedding of the SQLite store described by
`local-api/schema.sql` and of the sync passes `syncBrowserData`
(`src/sync-browser-data.js`) and the transaction phase of `syncBlockchainData`
(`src/fetch-blockchain-data.js`, served by `src/server.js`), together with the
pure record mapping of `fetchAccountBalances`.

Modelling conventions:
- SQL `TEXT` columns are `String` (`Option String` when the column is nullable
  and the code can actually store NULL there); timestamps (`datetime('now')`,
  `new Date().toISOString()`) are naturals, one `now` value per pass.
- A JavaScript value that is `null`/`undefined` (or an absent object field) is
  `none`; `x || y` fallbacks on such fields are `Option.getD`.
- Tables are lists of row structures in insertion order.  An SQLite
  `ON CONFLICT ... DO UPDATE` statement updates every row matching the
  conflict target; on states satisfying the schema's UNIQUE constraints there
  is at most one such row, which is what the real store guarantees.
- Surrogate `id INTEGER PRIMARY KEY AUTOINCREMENT` columns and the unused
  `user_id` foreign keys are not modelled; no statement of the sync code reads
  or writes them.
- `better-sqlite3` prepares a statement eagerly: `db.prepare(sql)` throws when
  the SQL is invalid.  In particular SQLite rejects, at prepare time, an
  `ON CONFLICT (cols...)` clause whose conflict target does not match a
  PRIMARY KEY or UNIQUE constraint of the table, with the message
  "ON CONFLICT clause does not match any PRIMARY KEY or UNIQUE constraint".
  This rule is embedded by `onConflictPrepareCheck` below, driven by the
  unique constraints actually declared in `schema.sql`.
-/

namespace BlackBottle

/-! ## Row types, one structure per table of `schema.sql` -/

/-- Row of `user_wallets`: UNIQUE(wallet_type, address, chain_id);
`wallet_type` and `address` are NOT NULL, `chain_id` is nullable. -/
structure WalletRow where
  walletType : String
  address : String
  chainId : Option String
  isPrimary : Bool
  createdAt : Nat
deriving Repr, DecidableEq

/-- Row of `user_preferences`: UNIQUE(wallet_address).  The sync code never
writes `gas_preferences`, so after an insert it holds its NULL default. -/
structure PrefRow where
  walletAddress : String
  locale : Option String
  selectedNetwork : Option String
  colorMode : Option String
  hasAcknowledgedTerms : Bool
  notificationsEnabled : Bool
  gasPreferences : Option String
  createdAt : Nat
  updatedAt : Nat
deriving Repr, DecidableEq

/-- Row of `trading_preferences`: UNIQUE(wallet_address).
`order_side_preference` is never written by the sync code. -/
structure TradingPrefRow where
  walletAddress : String
  defaultSlippage : Option String
  tradeLayout : String
  chartPreferences : String
  orderSidePreference : Option String
  displayUnit : String
  createdAt : Nat
  updatedAt : Nat
deriving Repr, DecidableEq

/-- Row of `dismissed_items`: UNIQUE(wallet_address, item_key). -/
structure DismissedRow where
  walletAddress : String
  itemKey : String
  dismissedAt : Nat
deriving Repr, DecidableEq

/-- Row of `affiliates`: UNIQUE(wallet_address). -/
structure AffiliateRow where
  walletAddress : String
  affiliateAddress : Option String
  affiliateMetadata : String
  createdAt : Nat
deriving Repr, DecidableEq

/-- Row of `account_balances`: UNIQUE(wallet_address, chain_id, token_symbol,
token_denom).  `token_denom` is nullable in the schema, but every row written
by the sync code carries the constant IBC denom string, so it is a `String`
here. -/
structure BalanceRow where
  walletAddress : String
  chainId : String
  tokenSymbol : String
  tokenDenom : String
  balance : String
  availableBalance : String
  lockedBalance : String
  lastUpdated : Nat
deriving Repr, DecidableEq

/-- Row of `positions`.  The table declares no UNIQUE constraint at all
(schema.sql lines 121-137), which is what makes the positions upsert
statement of the blockchain pass unpreparable. -/
structure PositionRow where
  walletAddress : String
  positionId : Option String
  market : String
  side : String
  status : String
  size : String
  maxSize : Option String
  entryPrice : Option String
  exitPrice : Option String
  realizedPnl : Option String
  unrealizedPnl : Option String
  createdAt : Nat
  updatedAt : Nat
  closedAt : Option Nat
deriving Repr, DecidableEq

/-- Row of `orders`: UNIQUE(order_id). -/
structure OrderRow where
  walletAddress : String
  orderId : String
  clientId : Option String
  market : String
  side : String
  otype : String
  status : String
  price : Option String
  triggerPrice : Option String
  size : String
  remainingSize : Option String
  postOnly : Bool
  reduceOnly : Bool
  timeInForce : Option String
  goodTilBlock : Option Nat
  createdAt : Nat
  updatedAt : Nat
deriving Repr, DecidableEq

/-- Row of `fills`: UNIQUE(fill_id), FOREIGN KEY (order_id) REFERENCES
orders(order_id) (enforced: init-db turns `foreign_keys` on). -/
structure FillRow where
  walletAddress : String
  fillId : String
  orderId : String
  market : String
  side : String
  size : String
  price : String
  fee : String
  liquidity : Option String
  createdAt : Nat
deriving Repr, DecidableEq

/-- Row of `transfers`.  `tx_hash` only has a plain (non-unique) index
`idx_transfers_tx_hash`; the table declares no UNIQUE constraint. -/
structure TransferRow where
  walletAddress : String
  transferId : Option String
  txHash : Option String
  ttype : String
  status : String
  fromAddress : Option String
  toAddress : Option String
  fromChain : Option String
  toChain : Option String
  amount : String
  tokenSymbol : String
  tokenDenom : Option String
  fee : Option String
  createdAt : Nat
  updatedAt : Nat
deriving Repr, DecidableEq

/-- Row of `swaps`.  Like `transfers`, `tx_hash` has only a non-unique
index. -/
structure SwapRow where
  walletAddress : String
  swapId : Option String
  txHash : Option String
  fromChain : String
  toChain : String
  fromToken : String
  toToken : String
  fromAmount : String
  toAmount : Option String
  estimatedToAmount : Option String
  routeData : String
  status : String
  createdAt : Nat
  updatedAt : Nat
deriving Repr, DecidableEq

/-- Row of `markets`: `market_id` is declared UNIQUE inline. -/
structure MarketRow where
  marketId : String
  baseAsset : String
  quoteAsset : String
  tickSize : String
  stepSize : String
  minOrderSize : String
  initialMarginFraction : Option String
  maintenanceMarginFraction : Option String
  status : String
  updatedAt : Nat
deriving Repr, DecidableEq

/-- Row of `sync_metadata`: UNIQUE(wallet_address, data_type).
`error_message` is never written by the sync code. -/
structure SyncMetaRow where
  walletAddress : String
  dataType : String
  lastSyncAt : Nat
  syncStatus : String
  errorMessage : Option String
  recordsSynced : Nat
deriving Repr, DecidableEq

/-- The store: the tables of `schema.sql` touched (or deliberately never
touched) by the two sync passes. -/
structure Db where
  userWallets : List WalletRow
  userPreferences : List PrefRow
  tradingPreferences : List TradingPrefRow
  dismissedItems : List DismissedRow
  affiliates : List AffiliateRow
  accountBalances : List BalanceRow
  positions : List PositionRow
  orders : List OrderRow
  fills : List FillRow
  transfers : List TransferRow
  swaps : List SwapRow
  markets : List MarketRow
  syncMetadata : List SyncMetaRow
deriving Repr, DecidableEq

def emptyDb : Db := ⟨[], [], [], [], [], [], [], [], [], [], [], [], []⟩

/-! ## Unique constraints of `schema.sql` and the upsert prepare rule -/

/-- The UNIQUE constraints `schema.sql` declares, per table, as lists of
column names (in declaration order, which is also the order the code's
conflict targets use).  `positions`, `transfers` and `swaps` declare none;
the surrogate integer primary keys are never used as conflict targets. -/
def schemaUniqueConstraints : String → List (List String)
  | "users" => [["email"]]
  | "user_wallets" => [["wallet_type", "address", "chain_id"]]
  | "user_preferences" => [["wallet_address"]]
  | "trading_preferences" => [["wallet_address"]]
  | "dismissed_items" => [["wallet_address", "item_key"]]
  | "affiliates" => [["wallet_address"]]
  | "account_balances" => [["wallet_address", "chain_id", "token_symbol", "token_denom"]]
  | "positions" => []
  | "orders" => [["order_id"]]
  | "fills" => [["fill_id"]]
  | "transfers" => []
  | "swaps" => []
  | "markets" => [["market_id"]]
  | "sync_metadata" => [["wallet_address", "data_type"]]
  | _ => []

/-- SQLite rejects, when the statement is prepared, an upsert whose
`ON CONFLICT (cols...)` target does not match a PRIMARY KEY or UNIQUE
constraint of the table.  `better-sqlite3` surfaces this as an exception
thrown by `db.prepare`. -/
def onConflictPrepareCheck (table : String) (target : List String) : Except String Unit :=
  if (schemaUniqueConstraints table).contains target then Except.ok ()
  else Except.error "ON CONFLICT clause does not match any PRIMARY KEY or UNIQUE constraint"

/-! ## Input model of the browser export consumed by `syncBrowserData` -/

/-- One element of `data.wallets`.  `type` may be missing from a JSON record
(modelled `none`); the sync statements bind it directly, so a missing type
hits the NOT NULL constraint of `user_wallets.wallet_type`. -/
structure WalletInput where
  wtype : Option String
  address : String
  chainId : Option String
deriving Repr, DecidableEq

/-- `data.preferences` as read by the pass (each field defaulted with
`|| null` or `? 1 : 0` at bind time). -/
structure PreferencesInput where
  locale : Option String
  network : Option String
  colorMode : Option String
  hasAcknowledgedTerms : Bool
  notificationsEnabled : Bool
deriving Repr, DecidableEq

/-- `data.tradingPreferences`; `tradeLayoutJson` and `chartPreferencesJson`
stand for the deterministic `JSON.stringify(x || ...)` strings. -/
structure TradingPreferencesInput where
  defaultSlippage : Option String
  tradeLayoutJson : String
  chartPreferencesJson : String
  displayUnit : Option String
deriving Repr, DecidableEq

/-- One element of `data.dismissedItems`. -/
structure DismissedItemInput where
  key : Option String
  dismissedAt : Option Nat
deriving Repr, DecidableEq

/-- `data.affiliates`; `metadataJson` stands for
`JSON.stringify(data.affiliates)`. An absent or empty object is `none`
(the code skips both: `Object.keys(...).length > 0`). -/
structure AffiliateInput where
  address : Option String
  metadataJson : String
deriving Repr, DecidableEq

/-- One element of `data.transfers`.  Only its presence matters: the
transfers insert statement cannot be prepared (see
`onConflictPrepareCheck`), so the per-transfer loop of the source is
unreachable and the record fields are never bound. -/
structure TransferInput where
  txHash : Option String
deriving Repr, DecidableEq

/-- One element of `data.swaps`; like `TransferInput`, never actually
bound. -/
structure SwapInput where
  txHash : Option String
deriving Repr, DecidableEq

/-- The browser export object.  A missing `wallets` array is modelled by the
empty list (both make `data.wallets?.find(...) ?? data.wallets?.[0]` come up
empty and the handler guard treat the batch as walletless); for the other
sections `none` models a missing/non-array field, which skips the
section. -/
structure BrowserExport where
  wallets : List WalletInput
  preferences : Option PreferencesInput
  tradingPreferences : Option TradingPreferencesInput
  dismissedItems : Option (List DismissedItemInput)
  affiliates : Option AffiliateInput
  transfers : Option (List TransferInput)
  swaps : Option (List SwapInput)
deriving Repr, DecidableEq

/-! ## The browser pass, section by section -/

/-- The shape shared by every `INSERT ... ON CONFLICT (key) DO UPDATE SET ...`
statement of the sync code: when a row matching the conflict target exists,
the DO UPDATE assignments run against it, otherwise the bound row is
appended.  The map below updates every matching row; on states satisfying
the table's UNIQUE constraint there is at most one, which is what the real
store guarantees. -/
def listUpsert {α : Type} (L : List α) (key : α → Bool) (upd : α → α) (new : α) :
    List α :=
  if L.any key then L.map (fun r => if key r then upd r else r) else L ++ [new]

/-- `data.wallets?.find(w => w.type === 'dydx') || data.wallets?.find(w =>
w.type === 'evm') || data.wallets?.[0]` (sync-browser-data.js lines
31-33). -/
def findPrimaryWallet (ws : List WalletInput) : Option WalletInput :=
  match ws.find? (fun w => w.wtype == some "dydx") with
  | some w => some w
  | none =>
    match ws.find? (fun w => w.wtype == some "evm") with
    | some w => some w
    | none => ws.head?

/-- The conflict target of the `user_wallets` statement. -/
def walletKey (wt addr ci : String) (r : WalletRow) : Bool :=
  r.walletType == wt && r.address == addr && r.chainId == some ci

/-- The `user_wallets` insert statement: `ON CONFLICT(wallet_type, address,
chain_id) DO UPDATE SET is_primary = excluded.is_primary`.  A NULL
`chain_id` never participates in a UNIQUE conflict (SQLite treats NULLs as
distinct), so such rows always insert. -/
def runWalletStmt (rows : List WalletRow) (primaryAddr : String) (w : WalletInput)
    (now : Nat) : Except String (List WalletRow) :=
  match w.wtype with
  | none => Except.error "NOT NULL constraint failed: user_wallets.wallet_type"
  | some wt =>
    let isPrim := w.address == primaryAddr
    match w.chainId with
    | none => Except.ok (rows ++ [⟨wt, w.address, none, isPrim, now⟩])
    | some ci =>
      Except.ok (listUpsert rows (walletKey wt w.address ci)
        (fun r => { r with isPrimary := isPrim })
        ⟨wt, w.address, some ci, isPrim, now⟩)

/-- The wallet loop: per-record try/catch appends `Wallet <address>: <msg>`
to the error list and keeps going; each successful run increments
`result.synced.wallets`. -/
def walletsApply (rows : List WalletRow) (primaryAddr : String) (ws : List WalletInput)
    (now : Nat) : List WalletRow × Nat × List String :=
  match ws with
  | [] => (rows, 0, [])
  | w :: rest =>
    match runWalletStmt rows primaryAddr w now with
    | Except.ok rows2 =>
      let r := walletsApply rows2 primaryAddr rest now
      (r.1, r.2.1 + 1, r.2.2)
    | Except.error m =>
      let r := walletsApply rows primaryAddr rest now
      (r.1, r.2.1, ["Wallet " ++ w.address ++ ": " ++ m] ++ r.2.2)

/-- The conflict target of the `user_preferences` statement. -/
def prefKey (addr : String) (r : PrefRow) : Bool := r.walletAddress == addr

/-- The DO UPDATE assignments of the `user_preferences` statement. -/
def prefUpdate (p : PreferencesInput) (now : Nat) (r : PrefRow) : PrefRow :=
  { r with locale := p.locale, selectedNetwork := p.network, colorMode := p.colorMode,
           hasAcknowledgedTerms := p.hasAcknowledgedTerms,
           notificationsEnabled := p.notificationsEnabled, updatedAt := now }

/-- The row bound by the `user_preferences` insert. -/
def prefNewRow (addr : String) (p : PreferencesInput) (now : Nat) : PrefRow :=
  ⟨addr, p.locale, p.network, p.colorMode, p.hasAcknowledgedTerms,
   p.notificationsEnabled, none, now, now⟩

/-- The `user_preferences` upsert keyed by `wallet_address`.  Every bound
column other than the key is nullable or a defaulted boolean and the key is
the primary wallet address, so the statement cannot fail;
`result.synced.preferences` is incremented unconditionally. -/
def prefUpsert (rows : List PrefRow) (addr : String) (p : PreferencesInput)
    (now : Nat) : List PrefRow :=
  listUpsert rows (prefKey addr) (prefUpdate p now) (prefNewRow addr p now)

/-- Section 2 of the pass: skipped when `data.preferences` is absent. -/
def prefsApply (rows : List PrefRow) (addr : String) (po : Option PreferencesInput)
    (now : Nat) : List PrefRow × Nat :=
  match po with
  | some p => (prefUpsert rows addr p now, 1)
  | none => (rows, 0)

/-- The conflict target of the `trading_preferences` statement. -/
def tradingKey (addr : String) (r : TradingPrefRow) : Bool := r.walletAddress == addr

/-- The DO UPDATE assignments of the `trading_preferences` statement. -/
def tradingUpdate (t : TradingPreferencesInput) (now : Nat) (r : TradingPrefRow) :
    TradingPrefRow :=
  { r with defaultSlippage := t.defaultSlippage, tradeLayout := t.tradeLayoutJson,
           chartPreferences := t.chartPreferencesJson,
           displayUnit := t.displayUnit.getD "ASSET", updatedAt := now }

/-- The row bound by the `trading_preferences` insert. -/
def tradingNewRow (addr : String) (t : TradingPreferencesInput) (now : Nat) :
    TradingPrefRow :=
  ⟨addr, t.defaultSlippage, t.tradeLayoutJson, t.chartPreferencesJson,
   none, t.displayUnit.getD "ASSET", now, now⟩

/-- The `trading_preferences` upsert keyed by `wallet_address`; the code
defaults `display_unit` with `|| 'ASSET'`. -/
def tradingUpsert (rows : List TradingPrefRow) (addr : String)
    (t : TradingPreferencesInput) (now : Nat) : List TradingPrefRow :=
  listUpsert rows (tradingKey addr) (tradingUpdate t now) (tradingNewRow addr t now)

/-- Section 3 of the pass. -/
def tradingApply (rows : List TradingPrefRow) (addr : String)
    (tpo : Option TradingPreferencesInput) (now : Nat) : List TradingPrefRow × Nat :=
  match tpo with
  | some t => (tradingUpsert rows addr t now, 1)
  | none => (rows, 0)

/-- The `dismissed_items` insert: `ON CONFLICT(wallet_address, item_key) DO
NOTHING`.  A duplicate pair is a successful no-op run; a missing `key` hits
the NOT NULL constraint on `item_key`. -/
def runDismissedStmt (rows : List DismissedRow) (addr : String) (it : DismissedItemInput)
    (now : Nat) : Except String (List DismissedRow) :=
  match it.key with
  | none => Except.error "NOT NULL constraint failed: dismissed_items.item_key"
  | some k =>
    if rows.any (fun r => r.walletAddress == addr && r.itemKey == k) then
      Except.ok rows
    else
      Except.ok (rows ++ [⟨addr, k, it.dismissedAt.getD now⟩])

/-- Section 4 of the pass: per-item try/catch; each run that does not throw
increments `result.synced.dismissedItems`, including conflict no-ops. -/
def dismissedApply (rows : List DismissedRow) (addr : String)
    (items : List DismissedItemInput) (now : Nat) : List DismissedRow × Nat × List String :=
  match items with
  | [] => (rows, 0, [])
  | it :: rest =>
    match runDismissedStmt rows addr it now with
    | Except.ok rows2 =>
      let r := dismissedApply rows2 addr rest now
      (r.1, r.2.1 + 1, r.2.2)
    | Except.error m =>
      let r := dismissedApply rows addr rest now
      (r.1, r.2.1, ["Dismissed item " ++ it.key.getD "undefined" ++ ": " ++ m] ++ r.2.2)

/-- Optional wrapper for section 4. -/
def dismissedApplyOpt (rows : List DismissedRow) (addr : String)
    (io : Option (List DismissedItemInput)) (now : Nat) :
    List DismissedRow × Nat × List String :=
  match io with
  | some items => dismissedApply rows addr items now
  | none => (rows, 0, [])

/-- The conflict target of the `affiliates` statement. -/
def affKey (addr : String) (r : AffiliateRow) : Bool := r.walletAddress == addr

/-- The DO UPDATE assignments of the `affiliates` statement: no timestamp
column is updated. -/
def affUpdate (a : AffiliateInput) (r : AffiliateRow) : AffiliateRow :=
  { r with affiliateAddress := a.address, affiliateMetadata := a.metadataJson }

/-- The row bound by the `affiliates` insert. -/
def affNewRow (addr : String) (a : AffiliateInput) (now : Nat) : AffiliateRow :=
  ⟨addr, a.address, a.metadataJson, now⟩

/-- The `affiliates` upsert keyed by `wallet_address`: replaces
`affiliate_address` and `affiliate_metadata` wholesale. -/
def affUpsert (rows : List AffiliateRow) (addr : String) (a : AffiliateInput)
    (now : Nat) : List AffiliateRow :=
  listUpsert rows (affKey addr) (affUpdate a) (affNewRow addr a now)

/-- Section 5 of the pass. -/
def affApply (rows : List AffiliateRow) (addr : String) (ao : Option AffiliateInput)
    (now : Nat) : List AffiliateRow × Nat :=
  match ao with
  | some a => (affUpsert rows addr a now, 1)
  | none => (rows, 0)

/-- The conflict target of the `sync_metadata` statement. -/
def metaKey (addr dataType : String) (r : SyncMetaRow) : Bool :=
  r.walletAddress == addr && r.dataType == dataType

/-- The DO UPDATE assignments of the `sync_metadata` statement: the status is
hard-coded to the literal string `success`. -/
def metaUpdate (now total : Nat) (r : SyncMetaRow) : SyncMetaRow :=
  { r with lastSyncAt := now, syncStatus := "success", recordsSynced := total }

/-- The `sync_metadata` upsert keyed by (wallet_address, data_type): both the
insert and the conflict update hard-code `sync_status = 'success'`;
`error_message` is never written. -/
def metaUpsert (rows : List SyncMetaRow) (addr dataType : String) (now total : Nat) :
    List SyncMetaRow :=
  listUpsert rows (metaKey addr dataType) (metaUpdate now total)
    ⟨addr, dataType, now, "success", none, total⟩

/-- `result.synced` of the browser pass. -/
structure BrowserCounts where
  wallets : Nat
  preferences : Nat
  tradingPreferences : Nat
  dismissedItems : Nat
  affiliates : Nat
  transfers : Nat
  swaps : Nat
deriving Repr, DecidableEq

/-- `Object.values(result.synced).reduce((a, b) => a + b, 0)`. -/
def BrowserCounts.total (c : BrowserCounts) : Nat :=
  c.wallets + c.preferences + c.tradingPreferences + c.dismissedItems +
    c.affiliates + c.transfers + c.swaps

def zeroBrowserCounts : BrowserCounts := ⟨0, 0, 0, 0, 0, 0, 0⟩

/-- The SyncResult shape returned by `syncBrowserData`. -/
structure BrowserSyncResult where
  success : Bool
  timestamp : Nat
  synced : BrowserCounts
  errors : List String
deriving Repr, DecidableEq

/-- The outer catch of both passes prefixes the fatal message. -/
def txFailed (m : String) : String := "Transaction failed: " ++ m

/-- `syncBrowserData(db, data)` (sync-browser-data.js).  The whole pass runs
in one transaction: a throw anywhere in the body rolls every write back and
only then is `success` cleared, with the per-record counts accumulated so far
left in `result.synced`.

The sections run in source order and touch pairwise disjoint tables, so the
committed state is assembled from the per-table section results.  The
transfers and swaps sections each begin by preparing an insert with
`ON CONFLICT(tx_hash) ...`, and `schema.sql` gives neither table a unique
constraint, so when `data.transfers` (or, failing that, `data.swaps`) is
present the prepare throws and aborts the transaction; the per-record loops
behind those prepares are unreachable and not modelled (see
`transfersStmtUnpreparable` and `swapsStmtUnpreparable`). -/
def syncBrowserData (db : Db) (data : BrowserExport) (now : Nat) :
    BrowserSyncResult × Db :=
  match findPrimaryWallet data.wallets with
  | none =>
    (⟨false, now, zeroBrowserCounts, [txFailed "No wallet address found in export data"]⟩, db)
  | some pw =>
    let addr := pw.address
    let ww := walletsApply db.userWallets addr data.wallets now
    let pp := prefsApply db.userPreferences addr data.preferences now
    let tt := tradingApply db.tradingPreferences addr data.tradingPreferences now
    let dd := dismissedApplyOpt db.dismissedItems addr data.dismissedItems now
    let aa := affApply db.affiliates addr data.affiliates now
    let counts : BrowserCounts := ⟨ww.2.1, pp.2, tt.2, dd.2.1, aa.2, 0, 0⟩
    let errs := ww.2.2 ++ dd.2.2
    if data.transfers.isSome then
      match onConflictPrepareCheck "transfers" ["tx_hash"] with
      | Except.error m => (⟨false, now, counts, errs ++ [txFailed m]⟩, db)
      | Except.ok _ =>
        -- unreachable: the check always fails for `transfers`
        (⟨false, now, counts, errs⟩, db)
    else if data.swaps.isSome then
      match onConflictPrepareCheck "swaps" ["tx_hash"] with
      | Except.error m => (⟨false, now, counts, errs ++ [txFailed m]⟩, db)
      | Except.ok _ =>
        -- unreachable: the check always fails for `swaps`
        (⟨false, now, counts, errs⟩, db)
    else
      (⟨true, now, counts, errs⟩,
       { db with
          userWallets := ww.1
          userPreferences := pp.1
          tradingPreferences := tt.1
          dismissedItems := dd.1
          affiliates := aa.1
          syncMetadata := metaUpsert db.syncMetadata addr "browser_storage" now counts.total })

/-- The `POST /sync/browser-data` route handler (server.js lines 79-96): a
body without a non-empty `wallets` array is rejected with HTTP 400 before
`syncBrowserData` runs; otherwise the result is served with 200 on success
and 500 on failure.  Only the status code and the resulting store are
modelled. -/
def postSyncBrowserData (db : Db) (data : BrowserExport) (now : Nat) : Nat × Db :=
  if data.wallets.isEmpty then (400, db)
  else
    let r := syncBrowserData db data now
    (if r.1.success then 200 else 500, r.2)

/-! ## Records fetched by the blockchain pass and its statement embeddings -/

/-- One balance record as produced by the mapping loop of
`fetchAccountBalances`; every field is set there, so all fields are
non-null. -/
structure BalanceRec where
  walletAddress : String
  chainId : String
  tokenSymbol : String
  tokenDenom : String
  balance : String
  availableBalance : String
  lockedBalance : String
deriving Repr, DecidableEq

def balanceKeyMatch (b : BalanceRec) (r : BalanceRow) : Bool :=
  r.walletAddress == b.walletAddress && r.chainId == b.chainId &&
    r.tokenSymbol == b.tokenSymbol && r.tokenDenom == b.tokenDenom

/-- The DO UPDATE assignments of the `account_balances` statement. -/
def balanceUpdate (b : BalanceRec) (now : Nat) (r : BalanceRow) : BalanceRow :=
  { r with balance := b.balance, availableBalance := b.availableBalance,
           lockedBalance := b.lockedBalance, lastUpdated := now }

/-- The `account_balances` upsert: `ON CONFLICT(wallet_address, chain_id,
token_symbol, token_denom) DO UPDATE SET balance, available_balance,
locked_balance, last_updated`.  All bound values are non-null strings, so
the statement cannot fail on these records. -/
def balanceUpsert (rows : List BalanceRow) (b : BalanceRec) (now : Nat) : List BalanceRow :=
  listUpsert rows (balanceKeyMatch b) (balanceUpdate b now)
    ⟨b.walletAddress, b.chainId, b.tokenSymbol, b.tokenDenom,
     b.balance, b.availableBalance, b.lockedBalance, now⟩

/-- The balance loop of the blockchain transaction; each run increments
`result.synced.balances`. -/
def balancesApply (rows : List BalanceRow) (bs : List BalanceRec) (now : Nat) :
    List BalanceRow × Nat :=
  match bs with
  | [] => (rows, 0)
  | b :: rest =>
    let r := balancesApply (balanceUpsert rows b now) rest now
    (r.1, r.2 + 1)

/-- One position record as mapped by `fetchPositions`.  Only the shape
matters: the positions insert statement cannot be prepared (its conflict
target `(wallet_address, position_id)` matches no unique constraint of
`positions`), so these records are never written. -/
structure PositionRec where
  walletAddress : String
  positionId : String
  market : String
  side : String
  status : String
  size : String
deriving Repr, DecidableEq

/-- One order record as mapped by `fetchOrders`: fields the indexer may omit
are optional and are bound as NULL. -/
structure OrderRec where
  walletAddress : String
  orderId : Option String
  clientId : Option String
  market : Option String
  side : Option String
  otype : Option String
  status : Option String
  price : Option String
  triggerPrice : Option String
  size : Option String
  remainingSize : Option String
  postOnly : Bool
  reduceOnly : Bool
  timeInForce : Option String
  goodTilBlock : Option Nat
  createdAt : Nat
  updatedAt : Nat
deriving Repr, DecidableEq

/-- The `orders` insert statement: `ON CONFLICT(order_id) DO UPDATE SET
status = excluded.status, remaining_size = excluded.remaining_size,
updated_at = excluded.updated_at` (server.js/fetch-blockchain-data lines
573-584).  On conflict only those three columns change: `wallet_address`,
`side`, `type`, `market`, `size` and the creation metadata of the existing
row are untouched.  In the pass this statement is only reached after the
positions prepare, which always throws, so it is embedded standalone. -/
def runOrderStmt (rows : List OrderRow) (o : OrderRec) : Except String (List OrderRow) :=
  if rows.any (fun r => some r.orderId == o.orderId) then
    match o.status with
    | none => Except.error "NOT NULL constraint failed: orders.status"
    | some st =>
      Except.ok (rows.map (fun r =>
        if some r.orderId == o.orderId then
          { r with status := st, remainingSize := o.remainingSize, updatedAt := o.updatedAt }
        else r))
  else
    match o.orderId, o.market, o.side, o.otype, o.status, o.size with
    | some oid, some mk, some sd, some ty, some st, some sz =>
      Except.ok (rows ++ [⟨o.walletAddress, oid, o.clientId, mk, sd, ty, st, o.price,
        o.triggerPrice, sz, o.remainingSize, o.postOnly, o.reduceOnly, o.timeInForce,
        o.goodTilBlock, o.createdAt, o.updatedAt⟩])
    | none, _, _, _, _, _ => Except.error "NOT NULL constraint failed: orders.order_id"
    | _, none, _, _, _, _ => Except.error "NOT NULL constraint failed: orders.market"
    | _, _, none, _, _, _ => Except.error "NOT NULL constraint failed: orders.side"
    | _, _, _, none, _, _ => Except.error "NOT NULL constraint failed: orders.type"
    | _, _, _, _, none, _ => Except.error "NOT NULL constraint failed: orders.status"
    | _, _, _, _, _, none => Except.error "NOT NULL constraint failed: orders.size"

/-- The conflict branch of the orders statement: what `DO UPDATE SET status,
remaining_size, updated_at` leaves in the table when `o` collides on
`order_id`. -/
def orderConflictUpdate (rows : List OrderRow) (o : OrderRec) (st : String) :
    List OrderRow :=
  rows.map (fun r =>
    if some r.orderId == o.orderId then
      { r with status := st, remainingSize := o.remainingSize, updatedAt := o.updatedAt }
    else r)

/-- One fill record as mapped by `fetchFills`; `fee` is defaulted with
`|| '0'` in the mapping. -/
structure FillRec where
  walletAddress : String
  fillId : Option String
  orderId : Option String
  market : Option String
  side : Option String
  size : Option String
  price : Option String
  fee : String
  liquidity : Option String
  createdAt : Nat
deriving Repr, DecidableEq

/-- The `fills` insert statement: `ON CONFLICT(fill_id) DO NOTHING`; a
duplicate `fill_id` is a silent no-op.  On a real insert the
`order_id` foreign key into `orders(order_id)` is enforced.  Like the
orders statement, unreachable in the current pass; embedded standalone. -/
def runFillStmt (rows : List FillRow) (ordersRows : List OrderRow) (f : FillRec) :
    Except String (List FillRow) :=
  if rows.any (fun r => some r.fillId == f.fillId) then
    Except.ok rows
  else
    match f.fillId, f.orderId, f.market, f.side, f.size, f.price with
    | some fid, some oid, some mk, some sd, some sz, some pr =>
      if ordersRows.any (fun r => r.orderId == oid) then
        Except.ok (rows ++ [⟨f.walletAddress, fid, oid, mk, sd, sz, pr, f.fee,
          f.liquidity, f.createdAt⟩])
      else Except.error "FOREIGN KEY constraint failed"
    | none, _, _, _, _, _ => Except.error "NOT NULL constraint failed: fills.fill_id"
    | _, none, _, _, _, _ => Except.error "NOT NULL constraint failed: fills.order_id"
    | _, _, none, _, _, _ => Except.error "NOT NULL constraint failed: fills.market"
    | _, _, _, none, _, _ => Except.error "NOT NULL constraint failed: fills.side"
    | _, _, _, _, none, _ => Except.error "NOT NULL constraint failed: fills.size"
    | _, _, _, _, _, none => Except.error "NOT NULL constraint failed: fills.price"

/-- One transfer record as mapped by `fetchTransfers`; like `PositionRec`,
never written (the transfers statement cannot be prepared). -/
structure ChainTransferRec where
  txHash : Option String
deriving Repr, DecidableEq

/-- One market record as mapped by `fetchMarkets`; its statement is valid
but unreachable (the pass aborts at the positions prepare). -/
structure MarketRec where
  marketId : String
deriving Repr, DecidableEq

/-- The record lists the six parallel fetches hand to the transaction phase
of `syncBlockchainData`. -/
structure BlockchainBatch where
  balances : List BalanceRec
  positions : List PositionRec
  orders : List OrderRec
  fills : List FillRec
  transfers : List ChainTransferRec
  markets : List MarketRec
deriving Repr, DecidableEq

/-- `result.synced` of the blockchain pass. -/
structure ChainCounts where
  balances : Nat
  positions : Nat
  orders : Nat
  fills : Nat
  transfers : Nat
  markets : Nat
deriving Repr, DecidableEq

/-- The SyncResult shape returned by `syncBlockchainData`. -/
structure ChainSyncResult where
  success : Bool
  timestamp : Nat
  synced : ChainCounts
  errors : List String
deriving Repr, DecidableEq

/-- The transaction phase of `syncBlockchainData(db, address, indexerUrl)`:
the network fetch phase is outside this embedding, its output is `b`.

The body prepares and runs the balance statement for each balance record,
then prepares the positions insert, whose conflict target
`(wallet_address, position_id)` matches no unique constraint of `positions`
(`schema.sql` declares none), so the prepare throws: the transaction rolls
back, the outer catch clears `success` and appends
`Sync failed: <message>`, and `result.synced.balances` keeps the count
accumulated before the rollback.  The order/fill/transfer/market sections
behind the positions prepare are unreachable and not modelled (the first
two are embedded standalone as `runOrderStmt` and `runFillStmt`). -/
def syncBlockchainTx (db : Db) (b : BlockchainBatch) (now : Nat) :
    ChainSyncResult × Db :=
  let bb := balancesApply db.accountBalances b.balances now
  match onConflictPrepareCheck "positions" ["wallet_address", "position_id"] with
  | Except.error m =>
    (⟨false, now, ⟨bb.2, 0, 0, 0, 0, 0⟩, ["Sync failed: " ++ m]⟩, db)
  | Except.ok _ =>
    -- unreachable: the check always fails for `positions`
    (⟨false, now, ⟨bb.2, 0, 0, 0, 0, 0⟩, []⟩, db)

/-! ## The pure record mapping of `fetchAccountBalances` -/

/-- One subaccount of the indexer `/v4/addresses/<address>` response, limited
to the fields the balance mapping reads. -/
structure Subaccount where
  address : String
  equity : Option String
  freeCollateral : Option String
deriving Repr, DecidableEq

def usdcIbcDenom : String :=
  "ibc/8E27BA2D5493AF5636760E354E46004562C46AB7EC0CC4C1CA14E9E20E2545B5"

/-- The row `fetchAccountBalances` pushes for one subaccount
(fetch-blockchain-data lines 224-235): skipped when `subaccount.equity` is
absent or empty (JS truthiness); `availableBalance` falls back from
`freeCollateral` to `equity` by the same truthiness test; `lockedBalance`
is the literal string "0". -/
def balanceRowOfSubaccount (addr : String) (s : Subaccount) : Option BalanceRec :=
  match s.equity with
  | none => none
  | some e =>
    if e == "" then none
    else
      let fc :=
        match s.freeCollateral with
        | some f => if f == "" then e else f
        | none => e
      some ⟨addr, "blackbottle-mainnet-1", "USDC", usdcIbcDenom, e, fc, "0"⟩

/-- The indexer response shape checked by `fetchAccountBalances`. -/
structure AddressResponse where
  subaccounts : Option (List Subaccount)
deriving Repr, DecidableEq

/-- The full pure mapping of `fetchAccountBalances` after the HTTP fetch:
an absent body or absent `subaccounts` array yields no rows. -/
def fetchAccountBalancesRows (addr : String) (resp : Option AddressResponse) :
    List BalanceRec :=
  match resp with
  | none => []
  | some r =>
    match r.subaccounts with
    | none => []
    | some subs => subs.filterMap (balanceRowOfSubaccount addr)

/-! ## Spec-side definitions (for refinement claims only) -/

/-- Modelled from the spec: the primary wallet address precedence as the
spec words it — "the ledger-chain (dYdX-type) wallet if one is present,
otherwise the EVM-type wallet if one is present, otherwise the first wallet
in the list".  Compared against `findPrimaryWallet`, which is translated
from the source. -/
def specPrimaryWallet (ws : List WalletInput) : Option WalletInput :=
  if ws.any (fun w => w.wtype == some "dydx") then
    ws.find? (fun w => w.wtype == some "dydx")
  else if ws.any (fun w => w.wtype == some "evm") then
    ws.find? (fun w => w.wtype == some "evm")
  else ws.head?

/-- The address of the spec-chosen primary wallet. -/
def specPrimaryAddress (ws : List WalletInput) : Option String :=
  (specPrimaryWallet ws).map (fun w => w.address)

/-! ## Timestamp erasure, for idempotence statements up to timestamps -/

/-- Erase the `updated_at` column of a `user_preferences` row. -/
def stripPrefRow (r : PrefRow) : PrefRow := { r with updatedAt := 0 }

/-- Erase the `updated_at` column of a `trading_preferences` row. -/
def stripTradingRow (r : TradingPrefRow) : TradingPrefRow := { r with updatedAt := 0 }

/-- Erase the `last_updated` column of an `account_balances` row. -/
def stripBalanceRow (r : BalanceRow) : BalanceRow := { r with lastUpdated := 0 }

/-- The field values the `user_preferences` statement binds. -/
def prefHasVals (p : PreferencesInput) (r : PrefRow) : Prop :=
  r.locale = p.locale ∧ r.selectedNetwork = p.network ∧ r.colorMode = p.colorMode ∧
    r.hasAcknowledgedTerms = p.hasAcknowledgedTerms ∧
    r.notificationsEnabled = p.notificationsEnabled

/-- The field values the `trading_preferences` statement binds. -/
def tradingHasVals (t : TradingPreferencesInput) (r : TradingPrefRow) : Prop :=
  r.defaultSlippage = t.defaultSlippage ∧ r.tradeLayout = t.tradeLayoutJson ∧
    r.chartPreferences = t.chartPreferencesJson ∧
    r.displayUnit = t.displayUnit.getD "ASSET"

/-- The field values the `affiliates` statement binds. -/
def affHasVals (a : AffiliateInput) (r : AffiliateRow) : Prop :=
  r.affiliateAddress = a.address ∧ r.affiliateMetadata = a.metadataJson

/-- The field values the `account_balances` statement binds. -/
def balanceHasVals (b : BalanceRec) (r : BalanceRow) : Prop :=
  r.balance = b.balance ∧ r.availableBalance = b.availableBalance ∧
    r.lockedBalance = b.lockedBalance

/-! ## Generic facts about `listUpsert` -/

theorem listUpsert_mem {α : Type} {L : List α} {key : α → Bool} {upd : α → α} {new : α} :
    ∀ r ∈ listUpsert L key upd new,
      r ∈ L ∨ (∃ x, x ∈ L ∧ key x = true ∧ r = upd x) ∨ r = new := by
  intro r hr
  unfold listUpsert at hr
  split at hr
  · rcases List.mem_map.mp hr with ⟨x, hx, hxr⟩
    by_cases hk : key x = true
    · right; left
      exact ⟨x, hx, hk, by rw [← hxr]; simp [hk]⟩
    · left
      have : x = r := by rw [← hxr]; simp [hk]
      rwa [← this]
  · rcases List.mem_append.mp hr with h | h
    · exact Or.inl h
    · right; right; simpa using h

theorem listUpsert_any {α : Type} {L : List α} {key : α → Bool} {upd : α → α} {new : α}
    (hknew : key new = true) (hkupd : ∀ r, key (upd r) = key r) :
    (listUpsert L key upd new).any key = true := by
  unfold listUpsert
  split
  · rename_i h
    rcases List.any_eq_true.mp h with ⟨x, hx, hkx⟩
    refine List.any_eq_true.mpr ⟨if key x then upd x else x, List.mem_map.mpr ⟨x, hx, rfl⟩, ?_⟩
    simp [hkx, hkupd]
  · simp [List.any_append, hknew]

/-- After an upsert, every row matching the conflict target carries the
bound values: either it was just updated or it is the inserted row (the
update runs on every matching row, and in the insert branch no matching row
existed). -/
theorem listUpsert_key_prop {α : Type} {L : List α} {key : α → Bool} {upd : α → α}
    {new : α} (P : α → Prop)
    (hPupd : ∀ r, key r = true → P (upd r)) (hPnew : P new) :
    ∀ r ∈ listUpsert L key upd new, key r = true → P r := by
  intro r hr hk
  unfold listUpsert at hr
  split at hr
  · rcases List.mem_map.mp hr with ⟨x, hx, hxr⟩
    by_cases hkx : key x = true
    · rw [← hxr] at hk ⊢
      simp only [hkx, if_true] at hk ⊢
      exact hPupd x hkx
    · rw [← hxr, if_neg hkx] at hk
      exact absurd hk hkx
  · rename_i hany
    rcases List.mem_append.mp hr with h | h
    · exfalso
      exact hany (List.any_eq_true.mpr ⟨r, h, hk⟩)
    · rw [List.mem_singleton.mp h]
      exact hPnew

theorem listUpsert_strip {α : Type} {L : List α} {key : α → Bool} {upd : α → α}
    {new : α} (strip : α → α)
    (hany : L.any key = true)
    (h : ∀ r ∈ L, key r = true → strip (upd r) = strip r) :
    (listUpsert L key upd new).map strip = L.map strip := by
  unfold listUpsert
  rw [if_pos hany, List.map_map]
  refine List.map_congr_left ?_
  intro r hr
  by_cases hk : key r = true
  · simp [Function.comp, hk, h r hr hk]
  · simp [Function.comp, hk]

theorem listUpsert_eq_self {α : Type} {L : List α} {key : α → Bool} {upd : α → α}
    {new : α}
    (hany : L.any key = true)
    (h : ∀ r ∈ L, key r = true → upd r = r) :
    listUpsert L key upd new = L := by
  unfold listUpsert
  rw [if_pos hany]
  have : ∀ r ∈ L, (if key r then upd r else r) = id r := by
    intro r hr
    by_cases hk : key r = true
    · simp [hk, h r hr hk]
    · simp [hk]
  rw [List.map_congr_left this, List.map_id]

/-! ## Per-table consequences -/

theorem prefKey_new (a : String) (p : PreferencesInput) (t : Nat) :
    prefKey a (prefNewRow a p t) = true := by
  simp [prefKey, prefNewRow]

theorem prefUpsert_any (L : List PrefRow) (a : String) (p : PreferencesInput) (t : Nat) :
    (prefUpsert L a p t).any (prefKey a) = true :=
  listUpsert_any (prefKey_new a p t) (fun _ => rfl)

theorem prefUpsert_vals (L : List PrefRow) (a : String) (p : PreferencesInput) (t : Nat) :
    ∀ r ∈ prefUpsert L a p t, prefKey a r = true → prefHasVals p r :=
  listUpsert_key_prop _ (fun r _ => by simp [prefUpdate, prefHasVals])
    (by simp [prefNewRow, prefHasVals])

theorem stripPref_update {p : PreferencesInput} {r : PrefRow} (t : Nat)
    (h : prefHasVals p r) : stripPrefRow (prefUpdate p t r) = stripPrefRow r := by
  obtain ⟨h1, h2, h3, h4, h5⟩ := h
  cases r
  simp_all [stripPrefRow, prefUpdate]

theorem prefUpsert_strip_idem (L : List PrefRow) (a : String) (p : PreferencesInput)
    (t1 t2 : Nat) :
    (prefUpsert (prefUpsert L a p t1) a p t2).map stripPrefRow
      = (prefUpsert L a p t1).map stripPrefRow :=
  listUpsert_strip _ (prefUpsert_any L a p t1)
    (fun r hr hk => stripPref_update t2 (prefUpsert_vals L a p t1 r hr hk))

theorem prefUpsert_new_addr (L : List PrefRow) (a : String) (p : PreferencesInput)
    (t : Nat) : ∀ r ∈ prefUpsert L a p t, r ∉ L → r.walletAddress = a := by
  intro r hr hnot
  rcases listUpsert_mem r hr with h | ⟨x, _, hkx, rfl⟩ | rfl
  · exact absurd h hnot
  · have : x.walletAddress = a := by simpa [prefKey] using hkx
    simpa [prefUpdate] using this
  · rfl

theorem tradingKey_new (a : String) (t : TradingPreferencesInput) (n : Nat) :
    tradingKey a (tradingNewRow a t n) = true := by
  simp [tradingKey, tradingNewRow]

theorem tradingUpsert_any (L : List TradingPrefRow) (a : String)
    (t : TradingPreferencesInput) (n : Nat) :
    (tradingUpsert L a t n).any (tradingKey a) = true :=
  listUpsert_any (tradingKey_new a t n) (fun _ => rfl)

theorem tradingUpsert_vals (L : List TradingPrefRow) (a : String)
    (t : TradingPreferencesInput) (n : Nat) :
    ∀ r ∈ tradingUpsert L a t n, tradingKey a r = true → tradingHasVals t r :=
  listUpsert_key_prop _ (fun r _ => by simp [tradingUpdate, tradingHasVals])
    (by simp [tradingNewRow, tradingHasVals])

theorem stripTrading_update {t : TradingPreferencesInput} {r : TradingPrefRow} (n : Nat)
    (h : tradingHasVals t r) : stripTradingRow (tradingUpdate t n r) = stripTradingRow r := by
  obtain ⟨h1, h2, h3, h4⟩ := h
  cases r
  simp_all [stripTradingRow, tradingUpdate]

theorem tradingUpsert_strip_idem (L : List TradingPrefRow) (a : String)
    (t : TradingPreferencesInput) (n1 n2 : Nat) :
    (tradingUpsert (tradingUpsert L a t n1) a t n2).map stripTradingRow
      = (tradingUpsert L a t n1).map stripTradingRow :=
  listUpsert_strip _ (tradingUpsert_any L a t n1)
    (fun r hr hk => stripTrading_update n2 (tradingUpsert_vals L a t n1 r hr hk))

theorem tradingUpsert_new_addr (L : List TradingPrefRow) (a : String)
    (t : TradingPreferencesInput) (n : Nat) :
    ∀ r ∈ tradingUpsert L a t n, r ∉ L → r.walletAddress = a := by
  intro r hr hnot
  rcases listUpsert_mem r hr with h | ⟨x, _, hkx, rfl⟩ | rfl
  · exact absurd h hnot
  · have : x.walletAddress = a := by simpa [tradingKey] using hkx
    simpa [tradingUpdate] using this
  · rfl

theorem affKey_new (addr : String) (a : AffiliateInput) (t : Nat) :
    affKey addr (affNewRow addr a t) = true := by
  simp [affKey, affNewRow]

theorem affUpsert_any (L : List AffiliateRow) (addr : String) (a : AffiliateInput)
    (t : Nat) : (affUpsert L addr a t).any (affKey addr) = true :=
  listUpsert_any (affKey_new addr a t) (fun _ => rfl)

theorem affUpsert_vals (L : List AffiliateRow) (addr : String) (a : AffiliateInput)
    (t : Nat) : ∀ r ∈ affUpsert L addr a t, affKey addr r = true → affHasVals a r :=
  listUpsert_key_prop _ (fun r _ => by simp [affUpdate, affHasVals])
    (by simp [affNewRow, affHasVals])

theorem affUpdate_id {a : AffiliateInput} {r : AffiliateRow} (h : affHasVals a r) :
    affUpdate a r = r := by
  obtain ⟨h1, h2⟩ := h
  cases r
  simp_all [affUpdate]

/-- Re-running the affiliate upsert with the same values changes nothing at
all (no timestamp column is touched by the update). -/
theorem affUpsert_idem (L : List AffiliateRow) (addr : String) (a : AffiliateInput)
    (t1 t2 : Nat) : affUpsert (affUpsert L addr a t1) addr a t2 = affUpsert L addr a t1 :=
  listUpsert_eq_self (affUpsert_any L addr a t1)
    (fun r hr hk => affUpdate_id (affUpsert_vals L addr a t1 r hr hk))

theorem affUpsert_new_addr (L : List AffiliateRow) (addr : String) (a : AffiliateInput)
    (t : Nat) : ∀ r ∈ affUpsert L addr a t, r ∉ L → r.walletAddress = addr := by
  intro r hr hnot
  rcases listUpsert_mem r hr with h | ⟨x, _, hkx, rfl⟩ | rfl
  · exact absurd h hnot
  · have : x.walletAddress = addr := by simpa [affKey] using hkx
    simpa [affUpdate] using this
  · rfl

theorem balanceKey_new (b : BalanceRec) (t : Nat) :
    balanceKeyMatch b ⟨b.walletAddress, b.chainId, b.tokenSymbol, b.tokenDenom,
      b.balance, b.availableBalance, b.lockedBalance, t⟩ = true := by
  simp [balanceKeyMatch]

theorem balanceUpsert_any (L : List BalanceRow) (b : BalanceRec) (t : Nat) :
    (balanceUpsert L b t).any (balanceKeyMatch b) = true :=
  listUpsert_any (balanceKey_new b t) (fun _ => rfl)

theorem balanceUpsert_vals (L : List BalanceRow) (b : BalanceRec) (t : Nat) :
    ∀ r ∈ balanceUpsert L b t, balanceKeyMatch b r = true → balanceHasVals b r :=
  listUpsert_key_prop _ (fun r _ => by simp [balanceUpdate, balanceHasVals])
    (by simp [balanceHasVals])

theorem stripBalance_update {b : BalanceRec} {r : BalanceRow} (t : Nat)
    (h : balanceHasVals b r) : stripBalanceRow (balanceUpdate b t r) = stripBalanceRow r := by
  obtain ⟨h1, h2, h3⟩ := h
  cases r
  simp_all [stripBalanceRow, balanceUpdate]

theorem balanceUpsert_strip_idem (L : List BalanceRow) (b : BalanceRec) (t1 t2 : Nat) :
    (balanceUpsert (balanceUpsert L b t1) b t2).map stripBalanceRow
      = (balanceUpsert L b t1).map stripBalanceRow :=
  listUpsert_strip _ (balanceUpsert_any L b t1)
    (fun r hr hk => stripBalance_update t2 (balanceUpsert_vals L b t1 r hr hk))

/-- Every `sync_metadata` row the upsert produces is either untouched or has
status `success`. -/
theorem metaUpsert_status (M : List SyncMetaRow) (a dt : String) (n tot : Nat) :
    ∀ r ∈ metaUpsert M a dt n tot, r ∈ M ∨ r.syncStatus = "success" := by
  intro r hr
  rcases listUpsert_mem r hr with h | ⟨x, _, _, rfl⟩ | rfl
  · exact Or.inl h
  · exact Or.inr rfl
  · exact Or.inr rfl

theorem runDismissedStmt_none {L : List DismissedRow} {a : String}
    {it : DismissedItemInput} {t : Nat} (hk : it.key = none) :
    runDismissedStmt L a it t
      = Except.error "NOT NULL constraint failed: dismissed_items.item_key" := by
  unfold runDismissedStmt
  rw [hk]

theorem runDismissedStmt_isOk {L : List DismissedRow} {a : String}
    {it : DismissedItemInput} {t : Nat} {k : String} (hk : it.key = some k) :
    ∃ L2, runDismissedStmt L a it t = Except.ok L2 := by
  unfold runDismissedStmt
  rw [hk]
  dsimp only
  by_cases hc : (L.any fun x => x.walletAddress == a && x.itemKey == k) = true
  · rw [if_pos hc]; exact ⟨L, rfl⟩
  · rw [if_neg hc]; exact ⟨_, rfl⟩

/-- Rows produced by one dismissed-item statement run: anything new belongs
to the batch owner. -/
theorem runDismissedStmt_mem {L L2 : List DismissedRow} {a : String}
    {it : DismissedItemInput} {t : Nat} (h : runDismissedStmt L a it t = Except.ok L2) :
    ∀ r ∈ L2, r ∈ L ∨ r.walletAddress = a := by
  intro r hr
  unfold runDismissedStmt at h
  cases hk : it.key with
  | none => rw [hk] at h; exact absurd h (by simp)
  | some k =>
    rw [hk] at h
    dsimp only at h
    by_cases hc : (L.any fun x => x.walletAddress == a && x.itemKey == k) = true
    · rw [if_pos hc] at h
      injection h with h2
      subst h2
      exact Or.inl hr
    · rw [if_neg hc] at h
      injection h with h2
      subst h2
      rcases List.mem_append.mp hr with h3 | h3
      · exact Or.inl h3
      · exact Or.inr (by rw [List.mem_singleton.mp h3])

/-- Rows produced by the dismissed-items loop: anything new belongs to the
batch owner. -/
theorem dismissedApply_mem (items : List DismissedItemInput) (a : String) (t : Nat) :
    ∀ L : List DismissedRow, ∀ r ∈ (dismissedApply L a items t).1,
      r ∈ L ∨ r.walletAddress = a := by
  induction items with
  | nil => intro L r hr; exact Or.inl hr
  | cons it rest ih =>
    intro L r hr
    unfold dismissedApply at hr
    cases hrun : runDismissedStmt L a it t with
    | ok L2 =>
      rw [hrun] at hr
      simp only at hr
      rcases ih L2 r hr with h | h
      · exact runDismissedStmt_mem hrun r h
      · exact Or.inr h
    | error m =>
      rw [hrun] at hr
      simp only at hr
      exact ih L r hr

/-- The dismissed-items count equals the number of items whose statement ran
without error, i.e. every item with a non-null key — conflict no-ops
included. -/
theorem dismissedApply_count (items : List DismissedItemInput) (a : String) (t : Nat) :
    ∀ L : List DismissedRow,
      (dismissedApply L a items t).2.1 = items.countP (fun i => i.key.isSome) := by
  induction items with
  | nil => intro L; rfl
  | cons it rest ih =>
    intro L
    cases hk : it.key with
    | none =>
      unfold dismissedApply
      rw [runDismissedStmt_none hk]
      simp [List.countP_cons, hk, ih L]
    | some k =>
      obtain ⟨L2, hL2⟩ := runDismissedStmt_isOk (L := L) (a := a) (t := t) hk
      unfold dismissedApply
      rw [hL2]
      simp [List.countP_cons, hk, ih L2]

/-! ## Pass-level helper lemmas -/

/-- `schema.sql` declares no unique constraint on `transfers.tx_hash`, so the
transfers upsert statement cannot be prepared. -/
theorem transfersPrepareErr :
    onConflictPrepareCheck "transfers" ["tx_hash"]
      = Except.error "ON CONFLICT clause does not match any PRIMARY KEY or UNIQUE constraint" :=
  rfl

/-- Likewise for `swaps.tx_hash`. -/
theorem swapsPrepareErr :
    onConflictPrepareCheck "swaps" ["tx_hash"]
      = Except.error "ON CONFLICT clause does not match any PRIMARY KEY or UNIQUE constraint" :=
  rfl

/-- Likewise for `positions (wallet_address, position_id)`. -/
theorem positionsPrepareErr :
    onConflictPrepareCheck "positions" ["wallet_address", "position_id"]
      = Except.error "ON CONFLICT clause does not match any PRIMARY KEY or UNIQUE constraint" :=
  rfl

/-- A browser pass that reports failure rolled its transaction back: the
store is exactly what it was.  (The result object was accumulated outside
the transaction, so its counts are not rolled back with it.) -/
theorem syncBrowserData_fail_rollback (db : Db) (data : BrowserExport) (t : Nat)
    (h : (syncBrowserData db data t).1.success = false) :
    (syncBrowserData db data t).2 = db := by
  unfold syncBrowserData at h ⊢
  cases hfp : findPrimaryWallet data.wallets with
  | none => rfl
  | some pw =>
    rw [hfp] at h
    cases hts : data.transfers with
    | some ts => simp [hts, transfersPrepareErr]
    | none =>
      cases hss : data.swaps with
      | some ss => simp [hts, hss, swapsPrepareErr]
      | none =>
        exfalso
        simp [hts, hss] at h

/-- The blockchain transaction never commits: the positions prepare throws
on every pass, the store is returned unchanged, and `success` is false. -/
theorem syncBlockchainTx_spec (db : Db) (b : BlockchainBatch) (t : Nat) :
    (syncBlockchainTx db b t).1.success = false ∧ (syncBlockchainTx db b t).2 = db :=
  ⟨rfl, rfl⟩

/-- A wallet list with no primary candidate is empty: a non-empty list always
yields its head as the final fallback. -/
theorem findPrimaryWallet_eq_none {ws : List WalletInput}
    (h : findPrimaryWallet ws = none) : ws = [] := by
  cases ws with
  | nil => rfl
  | cons w rest =>
    unfold findPrimaryWallet at h
    cases h1 : (w :: rest).find? (fun x => x.wtype == some "dydx") <;>
      cases h2 : (w :: rest).find? (fun x => x.wtype == some "evm") <;>
      simp [h1, h2] at h

/-- The source's primary-wallet selection implements the spec's precedence
(dYdX-type first, then EVM-type, then the first wallet). -/
theorem findPrimary_refines_spec (ws : List WalletInput) :
    findPrimaryWallet ws = specPrimaryWallet ws := by
  unfold findPrimaryWallet specPrimaryWallet
  cases h1 : ws.find? (fun w => w.wtype == some "dydx") with
  | some w =>
    have hmem : w ∈ ws := List.mem_of_find?_eq_some h1
    have hp := List.find?_some h1
    have ha : ws.any (fun w => w.wtype == some "dydx") = true :=
      List.any_eq_true.mpr ⟨w, hmem, hp⟩
    rw [if_pos ha]
  | none =>
    have ha : ¬ ws.any (fun w => w.wtype == some "dydx") = true := by
      intro hcon
      rcases List.any_eq_true.mp hcon with ⟨x, hx, hpx⟩
      exact (List.find?_eq_none.mp h1 x hx) hpx
    rw [if_neg ha]
    cases h2 : ws.find? (fun w => w.wtype == some "evm") with
    | some w =>
      have hmem : w ∈ ws := List.mem_of_find?_eq_some h2
      have hp := List.find?_some h2
      have hb : ws.any (fun w => w.wtype == some "evm") = true :=
        List.any_eq_true.mpr ⟨w, hmem, hp⟩
      rw [if_pos hb]
    | none =>
      have hb : ¬ ws.any (fun w => w.wtype == some "evm") = true := by
        intro hcon
        rcases List.any_eq_true.mp hcon with ⟨x, hx, hpx⟩
        exact (List.find?_eq_none.mp h2 x hx) hpx
      rw [if_neg hb]

/-- Re-running the preferences section with the same input changes nothing
up to `updated_at`. -/
theorem prefsApply_strip_idem (L : List PrefRow) (a : String)
    (po : Option PreferencesInput) (t1 t2 : Nat) :
    ((prefsApply (prefsApply L a po t1).1 a po t2).1).map stripPrefRow
      = ((prefsApply L a po t1).1).map stripPrefRow := by
  cases po with
  | none => rfl
  | some p => exact prefUpsert_strip_idem L a p t1 t2

/-- Re-running the trading-preferences section with the same input changes
nothing up to `updated_at`. -/
theorem tradingApply_strip_idem (L : List TradingPrefRow) (a : String)
    (tpo : Option TradingPreferencesInput) (t1 t2 : Nat) :
    ((tradingApply (tradingApply L a tpo t1).1 a tpo t2).1).map stripTradingRow
      = ((tradingApply L a tpo t1).1).map stripTradingRow := by
  cases tpo with
  | none => rfl
  | some t => exact tradingUpsert_strip_idem L a t t1 t2

/-- Re-running the affiliates section with the same input is a strict
no-op. -/
theorem affApply_idem (L : List AffiliateRow) (a : String)
    (ao : Option AffiliateInput) (t1 t2 : Nat) :
    (affApply (affApply L a ao t1).1 a ao t2).1 = (affApply L a ao t1).1 := by
  cases ao with
  | none => rfl
  | some x => exact affUpsert_idem L a x t1 t2

/-- New preference rows belong to the batch owner. -/
theorem prefsApply_new_addr (L : List PrefRow) (a : String)
    (po : Option PreferencesInput) (t : Nat) :
    ∀ r ∈ (prefsApply L a po t).1, r ∉ L → r.walletAddress = a := by
  cases po with
  | none => intro r hr hn; exact absurd hr hn
  | some p => exact prefUpsert_new_addr L a p t

/-- New trading-preference rows belong to the batch owner. -/
theorem tradingApply_new_addr (L : List TradingPrefRow) (a : String)
    (tpo : Option TradingPreferencesInput) (t : Nat) :
    ∀ r ∈ (tradingApply L a tpo t).1, r ∉ L → r.walletAddress = a := by
  cases tpo with
  | none => intro r hr hn; exact absurd hr hn
  | some x => exact tradingUpsert_new_addr L a x t

/-- New affiliate rows belong to the batch owner. -/
theorem affApply_new_addr (L : List AffiliateRow) (a : String)
    (ao : Option AffiliateInput) (t : Nat) :
    ∀ r ∈ (affApply L a ao t).1, r ∉ L → r.walletAddress = a := by
  cases ao with
  | none => intro r hr hn; exact absurd hr hn
  | some x => exact affUpsert_new_addr L a x t

/-- New dismissed-item rows belong to the batch owner. -/
theorem dismissedApplyOpt_new_addr (L : List DismissedRow) (a : String)
    (io : Option (List DismissedItemInput)) (t : Nat) :
    ∀ r ∈ (dismissedApplyOpt L a io t).1, r ∉ L → r.walletAddress = a := by
  cases io with
  | none => intro r hr hn; exact absurd hr hn
  | some items =>
    intro r hr hn
    rcases dismissedApply_mem items a t L r hr with h | h
    · exact absurd h hn
    · exact h

/-! ## Claims -/

/-- C2: the claimed position upsert semantics never execute.  The positions
insert uses `ON CONFLICT(wallet_address, position_id)`, but `schema.sql`
declares no unique constraint on `positions` at all, so SQLite refuses to
prepare the statement; every blockchain pass — here one with a single
well-formed position record — aborts wholesale with that error, rolls back,
and leaves the store untouched.  No merge of mutable fields ever happens. -/
theorem c2_position_upsert_unpreparable :
    schemaUniqueConstraints "positions" = [] ∧
    onConflictPrepareCheck "positions" ["wallet_address", "position_id"]
      = Except.error "ON CONFLICT clause does not match any PRIMARY KEY or UNIQUE constraint" ∧
    syncBlockchainTx emptyDb
        ⟨[], [⟨"A", "A-BTC-USD", "BTC-USD", "LONG", "OPEN", "1"⟩], [], [], [], []⟩ 7
      = (⟨false, 7, ⟨0, 0, 0, 0, 0, 0⟩,
          ["Sync failed: ON CONFLICT clause does not match any PRIMARY KEY or UNIQUE constraint"]⟩,
         emptyDb) :=
  ⟨rfl, rfl, rfl⟩

/-- C3: the claimed transfer upsert semantics never execute.  Both transfer
statements use `ON CONFLICT(tx_hash)`, but `transfers` (and `swaps`) has
only a non-unique index on `tx_hash`, so the prepare throws: a browser batch
carrying one transfer — after one wallet row already ran — aborts the whole
transaction and rolls everything back; the blockchain pass never reaches its
transfer statement at all (it aborts earlier, at the positions prepare). -/
theorem c3_transfer_upsert_unpreparable :
    schemaUniqueConstraints "transfers" = [] ∧
    schemaUniqueConstraints "swaps" = [] ∧
    onConflictPrepareCheck "transfers" ["tx_hash"]
      = Except.error "ON CONFLICT clause does not match any PRIMARY KEY or UNIQUE constraint" ∧
    syncBrowserData emptyDb
        ⟨[⟨some "dydx", "A", some "c1"⟩], none, none, none, none, some [⟨some "h1"⟩], none⟩ 7
      = (⟨false, 7, ⟨1, 0, 0, 0, 0, 0, 0⟩,
          ["Transaction failed: ON CONFLICT clause does not match any PRIMARY KEY or UNIQUE constraint"]⟩,
         emptyDb) :=
  ⟨rfl, rfl, rfl, rfl⟩

/-- C4: a session-state snapshot with no extractable wallet candidate is
rejected before any write: the route answers 400 without touching the store,
and the sync function itself reports `success = false` with all counts zero
and returns the store exactly as it was. -/
theorem c4_ownerless_rejection (db : Db) (data : BrowserExport) (now : Nat)
    (h : findPrimaryWallet data.wallets = none) :
    postSyncBrowserData db data now = (400, db) ∧
    (syncBrowserData db data now).1.success = false ∧
    (syncBrowserData db data now).1.synced = zeroBrowserCounts ∧
    (syncBrowserData db data now).2 = db := by
  have hw : data.wallets = [] := findPrimaryWallet_eq_none h
  refine ⟨?_, ?_, ?_, ?_⟩ <;>
    simp [postSyncBrowserData, syncBrowserData, hw, findPrimaryWallet]

/-- Witness for C4 at a concrete walletless snapshot. -/
theorem c4_ownerless_rejection_witness :
    postSyncBrowserData emptyDb ⟨[], none, none, none, none, none, none⟩ 3
      = (400, emptyDb) ∧
    (syncBrowserData emptyDb ⟨[], none, none, none, none, none, none⟩ 3).1.success = false ∧
    (syncBrowserData emptyDb ⟨[], none, none, none, none, none, none⟩ 3).1.synced
      = zeroBrowserCounts ∧
    (syncBrowserData emptyDb ⟨[], none, none, none, none, none, none⟩ 3).2 = emptyDb :=
  c4_ownerless_rejection emptyDb ⟨[], none, none, none, none, none, none⟩ 3 rfl

/-- C8 counterexample: a subaccount that reports equity "100" and omits the
available/locked breakdown yields a Balance row whose locked balance is the
literal "0", not the full balance "100" — the claim that both available and
locked default to the full balance fails on the locked side. -/
theorem c8_locked_balance_counterexample :
    fetchAccountBalancesRows "A" (some ⟨some [⟨"s1", some "100", none⟩]⟩)
      = [⟨"A", "blackbottle-mainnet-1", "USDC", usdcIbcDenom, "100", "100", "0"⟩] ∧
    ("0" : String) ≠ "100" :=
  ⟨rfl, by decide⟩

/-- C8 as amended: when the upstream service omits the breakdown, only the
available balance defaults to the full balance; the locked balance is always
the string "0", whatever the upstream reports. -/
theorem c8_balance_defaults_amended (addr : String) (s : Subaccount) (rec : BalanceRec)
    (h : balanceRowOfSubaccount addr s = some rec) :
    rec.lockedBalance = "0" ∧
    (s.freeCollateral = none → rec.availableBalance = rec.balance) := by
  unfold balanceRowOfSubaccount at h
  cases he : s.equity with
  | none => rw [he] at h; exact absurd h (by simp)
  | some e =>
    rw [he] at h
    dsimp only at h
    by_cases hemp : (e == "") = true
    · rw [if_pos hemp] at h; exact absurd h (by simp)
    · rw [if_neg hemp] at h
      injection h with h2
      subst h2
      refine ⟨rfl, ?_⟩
      intro hfc
      rw [hfc]

/-- Witness for C8 at the concrete subaccount of the counterexample. -/
theorem c8_balance_defaults_amended_witness :
    (⟨"A", "blackbottle-mainnet-1", "USDC", usdcIbcDenom, "100", "100", "0"⟩ :
        BalanceRec).lockedBalance = "0" ∧
    ((⟨"s1", some "100", none⟩ : Subaccount).freeCollateral = none →
      (⟨"A", "blackbottle-mainnet-1", "USDC", usdcIbcDenom, "100", "100", "0"⟩ :
        BalanceRec).availableBalance
        = (⟨"A", "blackbottle-mainnet-1", "USDC", usdcIbcDenom, "100", "100", "0"⟩ :
        BalanceRec).balance) :=
  c8_balance_defaults_amended "A" ⟨"s1", some "100", none⟩
    ⟨"A", "blackbottle-mainnet-1", "USDC", usdcIbcDenom, "100", "100", "0"⟩ rfl

/-- C10: when a pass's transaction aborts, the returned result keeps the
per-category counts accumulated before the rollback.  The blockchain pass
always aborts (rolling back and clearing `success`), yet a batch with one
balance record still reports `synced.balances = 1`; a browser batch whose
transfers array forces an abort still reports its one wallet as synced while
the committed store is unchanged. -/
theorem c10_counts_survive_rollback :
    (∀ (db : Db) (b : BlockchainBatch) (t : Nat),
      (syncBlockchainTx db b t).1.success = false ∧ (syncBlockchainTx db b t).2 = db) ∧
    (∀ (db : Db) (data : BrowserExport) (t : Nat),
      (syncBrowserData db data t).1.success = false → (syncBrowserData db data t).2 = db) ∧
    (syncBlockchainTx emptyDb
        ⟨[⟨"A", "blackbottle-mainnet-1", "USDC", usdcIbcDenom, "100", "100", "0"⟩],
         [], [], [], [], []⟩ 7).1.synced.balances = 1 ∧
    ((syncBrowserData emptyDb
        ⟨[⟨some "dydx", "A", some "c1"⟩], none, none, none, none, some [⟨some "h1"⟩], none⟩
        7).1.success = false ∧
     (syncBrowserData emptyDb
        ⟨[⟨some "dydx", "A", some "c1"⟩], none, none, none, none, some [⟨some "h1"⟩], none⟩
        7).1.synced.wallets = 1 ∧
     (syncBrowserData emptyDb
        ⟨[⟨some "dydx", "A", some "c1"⟩], none, none, none, none, some [⟨some "h1"⟩], none⟩
        7).2 = emptyDb) :=
  ⟨fun db b t => syncBlockchainTx_spec db b t,
   syncBrowserData_fail_rollback,
   rfl, rfl, rfl, rfl⟩

/-- Witness for C10's rollback implication at a concrete aborting input. -/
theorem c10_counts_survive_rollback_witness :
    (syncBrowserData emptyDb
        ⟨[⟨some "dydx", "A", some "c1"⟩], none, none, none, none, some [⟨some "h1"⟩], none⟩
        7).2 = emptyDb :=
  c10_counts_survive_rollback.2.1 emptyDb
    ⟨[⟨some "dydx", "A", some "c1"⟩], none, none, none, none, some [⟨some "h1"⟩], none⟩ 7 rfl

/-- C1 counterexample: a browser batch with one malformed wallet record (null
type) and one valid wallet commits with exactly one per-record error, yet the
ledger row written at the end of the pass says `success`, not `partial` as
the claim requires. -/
theorem c1_partial_status_counterexample :
    (syncBrowserData emptyDb
        ⟨[⟨none, "w1", none⟩, ⟨some "dydx", "A", some "c1"⟩],
         none, none, none, none, none, none⟩ 5).1.success = true ∧
    (syncBrowserData emptyDb
        ⟨[⟨none, "w1", none⟩, ⟨some "dydx", "A", some "c1"⟩],
         none, none, none, none, none, none⟩ 5).1.errors
      = ["Wallet w1: NOT NULL constraint failed: user_wallets.wallet_type"] ∧
    (syncBrowserData emptyDb
        ⟨[⟨none, "w1", none⟩, ⟨some "dydx", "A", some "c1"⟩],
         none, none, none, none, none, none⟩ 5).2.syncMetadata.map (fun r => r.syncStatus)
      = ["success"] ∧
    ("success" : String) ≠ "partial" :=
  ⟨rfl, rfl, rfl, by decide⟩

/-- C1 as amended: the sync ledger entry written at the end of a committed
pass always carries status `success`, regardless of the accumulated
per-record error list; when the transaction cannot commit, the ledger write
is rolled back with everything else, so no `failed` (or any) entry is
recorded — and the blockchain pass, which never commits, never writes a
ledger row at all. -/
theorem c1_ledger_status_amended :
    (∀ (db : Db) (data : BrowserExport) (t : Nat),
      (syncBrowserData db data t).1.success = false →
        (syncBrowserData db data t).2.syncMetadata = db.syncMetadata) ∧
    (∀ (db : Db) (data : BrowserExport) (t : Nat),
      (syncBrowserData db data t).1.success = true →
        ∀ r ∈ (syncBrowserData db data t).2.syncMetadata,
          r ∈ db.syncMetadata ∨ r.syncStatus = "success") ∧
    (∀ (db : Db) (b : BlockchainBatch) (t : Nat),
      (syncBlockchainTx db b t).2.syncMetadata = db.syncMetadata) := by
  refine ⟨?_, ?_, ?_⟩
  · intro db data t h
    rw [syncBrowserData_fail_rollback db data t h]
  · intro db data t h
    unfold syncBrowserData at h ⊢
    cases hfp : findPrimaryWallet data.wallets with
    | none => rw [hfp] at h; simp at h
    | some pw =>
      rw [hfp] at h
      cases hts : data.transfers with
      | some ts => rw [hts] at h; simp [transfersPrepareErr] at h
      | none =>
        cases hss : data.swaps with
        | some ss => rw [hts, hss] at h; simp [swapsPrepareErr] at h
        | none =>
          simp only [hts, hss, Option.isSome_none, Bool.false_eq_true, if_false]
          exact metaUpsert_status _ _ _ _ _
  · intro db b t
    rfl

/-- Witness for C1's amended theorem at a concrete committing pass. -/
theorem c1_ledger_status_amended_witness :
    (⟨"A", "browser_storage", 2, "success", none, 1⟩ : SyncMetaRow) ∈ emptyDb.syncMetadata ∨
    (⟨"A", "browser_storage", 2, "success", none, 1⟩ : SyncMetaRow).syncStatus = "success" :=
  c1_ledger_status_amended.2.1 emptyDb
    ⟨[⟨some "dydx", "A", some "c1"⟩], none, none, none, none, none, none⟩ 2 rfl
    ⟨"A", "browser_storage", 2, "success", none, 1⟩ (by decide)

/-- C5 counterexample: syncing a dismissed item whose (wallet, key) pair is
already stored is a conflict no-op — no row is inserted or updated — yet the
pass counts it: `synced.dismissedItems = 1` while the table is unchanged. -/
theorem c5_skipped_counted_counterexample :
    (syncBrowserData { emptyDb with dismissedItems := [⟨"A", "k", 3⟩] }
        ⟨[⟨some "dydx", "A", some "c1"⟩], none, none, some [⟨some "k", some 9⟩],
         none, none, none⟩ 7).1.synced.dismissedItems = 1 ∧
    (syncBrowserData { emptyDb with dismissedItems := [⟨"A", "k", 3⟩] }
        ⟨[⟨some "dydx", "A", some "c1"⟩], none, none, some [⟨some "k", some 9⟩],
         none, none, none⟩ 7).2.dismissedItems = [⟨"A", "k", 3⟩] :=
  ⟨rfl, rfl⟩

/-- C5 as amended: a per-category count tallies the records whose insert
statement executed without raising an error, not the rows actually written:
for a committed browser pass the dismissed-items count equals the number of
batch items with a non-null key, whatever the store already contained, so an
already-present item (an `ON CONFLICT DO NOTHING` no-op) is still counted. -/
theorem c5_counts_amended (db : Db) (data : BrowserExport) (t : Nat)
    (h : (syncBrowserData db data t).1.success = true) :
    (syncBrowserData db data t).1.synced.dismissedItems
      = (data.dismissedItems.getD []).countP (fun i => i.key.isSome) := by
  unfold syncBrowserData at h ⊢
  cases hfp : findPrimaryWallet data.wallets with
  | none => rw [hfp] at h; simp at h
  | some pw =>
    rw [hfp] at h
    cases hts : data.transfers with
    | some ts => rw [hts] at h; simp [transfersPrepareErr] at h
    | none =>
      cases hss : data.swaps with
      | some ss => rw [hts, hss] at h; simp [swapsPrepareErr] at h
      | none =>
        cases hdi : data.dismissedItems with
        | none => simp [hts, hss, hdi, dismissedApplyOpt]
        | some items =>
          simp [hts, hss, hdi, dismissedApplyOpt,
            dismissedApply_count items pw.address t db.dismissedItems]

/-- Witness for C5's amended theorem at a concrete committing pass. -/
theorem c5_counts_amended_witness :
    (syncBrowserData emptyDb
        ⟨[⟨some "dydx", "A", some "c1"⟩], none, none, some [⟨some "k", none⟩],
         none, none, none⟩ 1).1.synced.dismissedItems
      = (((some [⟨some "k", none⟩] : Option (List DismissedItemInput)).getD
            []).countP (fun i => i.key.isSome)) :=
  c5_counts_amended emptyDb
    ⟨[⟨some "dydx", "A", some "c1"⟩], none, none, some [⟨some "k", none⟩],
     none, none, none⟩ 1 rfl

/-- C6 counterexample: wallet B syncs an order whose `orderId` already exists
under wallet A.  The statement succeeds (no data-integrity error is
surfaced) and silently rewrites wallet A's stored row: its status becomes
B's status, its remaining size and `updated_at` change, while the row still
belongs to A. -/
theorem c6_order_collision_counterexample :
    runOrderStmt
        [⟨"A", "o1", none, "BTC-USD", "BUY", "LIMIT", "OPEN", some "10", none, "1",
          some "1", false, false, none, none, 1, 1⟩]
        ⟨"B", some "o1", none, some "ETH-USD", some "SELL", some "MARKET", some "FILLED",
         none, none, some "2", some "0", false, false, none, none, 8, 9⟩
      = Except.ok
        [⟨"A", "o1", none, "BTC-USD", "BUY", "LIMIT", "FILLED", some "10", none, "1",
          some "0", false, false, none, none, 1, 9⟩] ∧
    [(⟨"A", "o1", none, "BTC-USD", "BUY", "LIMIT", "OPEN", some "10", none, "1",
       some "1", false, false, none, none, 1, 1⟩ : OrderRow)]
      ≠ [⟨"A", "o1", none, "BTC-USD", "BUY", "LIMIT", "FILLED", some "10", none, "1",
          some "0", false, false, none, none, 1, 9⟩] :=
  ⟨rfl, by decide⟩

/-- C6 as amended: order ids are globally unique (UNIQUE(order_id) prevents a
second row), but a cross-wallet collision is not an error: the DO UPDATE
clause silently rewrites the existing row's status, remaining size and
`updated_at`, leaving its owner and immutable fields (market, side, size,
creation time) unchanged; a colliding fill id is silently dropped with the
fills table untouched.  (In the current pass both statements are unreachable
anyway: the pass aborts earlier at the positions prepare.) -/
theorem c6_collision_amended :
    (∀ (L : List OrderRow) (o : OrderRec) (r0 : OrderRow) (st : String),
      r0 ∈ L → o.orderId = some r0.orderId → o.status = some st →
        runOrderStmt L o = Except.ok (orderConflictUpdate L o st) ∧
        (orderConflictUpdate L o st).length = L.length ∧
        (orderConflictUpdate L o st).map (fun r => r.walletAddress)
          = L.map (fun r => r.walletAddress) ∧
        (orderConflictUpdate L o st).map (fun r => r.orderId)
          = L.map (fun r => r.orderId) ∧
        (orderConflictUpdate L o st).map (fun r => r.market)
          = L.map (fun r => r.market) ∧
        (orderConflictUpdate L o st).map (fun r => r.side)
          = L.map (fun r => r.side) ∧
        (orderConflictUpdate L o st).map (fun r => r.size)
          = L.map (fun r => r.size) ∧
        (orderConflictUpdate L o st).map (fun r => r.createdAt)
          = L.map (fun r => r.createdAt)) ∧
    (∀ (FL : List FillRow) (OL : List OrderRow) (f : FillRec) (fr0 : FillRow),
      fr0 ∈ FL → f.fillId = some fr0.fillId →
        runFillStmt FL OL f = Except.ok FL) := by
  constructor
  · intro L o r0 st hmem hid hst
    have hany : L.any (fun r => some r.orderId == o.orderId) = true := by
      refine List.any_eq_true.mpr ⟨r0, hmem, ?_⟩
      rw [hid]
      simp
    have hrun : runOrderStmt L o = Except.ok (orderConflictUpdate L o st) := by
      unfold runOrderStmt
      rw [if_pos hany, hst]
      rfl
    refine ⟨hrun, List.length_map _ _, ?_, ?_, ?_, ?_, ?_, ?_⟩ <;>
      · unfold orderConflictUpdate
        rw [List.map_map]
        refine List.map_congr_left ?_
        intro r hr
        by_cases hk : (some r.orderId == o.orderId) = true <;>
          simp [Function.comp, hk]
  · intro FL OL f fr0 hmem hid
    have hany : FL.any (fun r => some r.fillId == f.fillId) = true := by
      refine List.any_eq_true.mpr ⟨fr0, hmem, ?_⟩
      rw [hid]
      simp
    unfold runFillStmt
    rw [if_pos hany]

/-- Witness for C6's amended theorem at the concrete collision of the
counterexample. -/
theorem c6_collision_amended_witness :
    runOrderStmt
        [⟨"A", "o1", none, "BTC-USD", "BUY", "LIMIT", "OPEN", some "10", none, "1",
          some "1", false, false, none, none, 1, 1⟩]
        ⟨"B", some "o1", none, some "ETH-USD", some "SELL", some "MARKET", some "FILLED",
         none, none, some "2", some "0", false, false, none, none, 8, 9⟩
      = Except.ok
        (orderConflictUpdate
          [⟨"A", "o1", none, "BTC-USD", "BUY", "LIMIT", "OPEN", some "10", none, "1",
            some "1", false, false, none, none, 1, 1⟩]
          ⟨"B", some "o1", none, some "ETH-USD", some "SELL", some "MARKET", some "FILLED",
           none, none, some "2", some "0", false, false, none, none, 8, 9⟩ "FILLED") ∧
    runFillStmt [⟨"A", "f1", "o1", "BTC-USD", "BUY", "1", "10", "0", none, 1⟩] []
        ⟨"B", some "f1", some "o1", some "BTC-USD", some "SELL", some "1", some "10",
         "0", none, 2⟩
      = Except.ok [⟨"A", "f1", "o1", "BTC-USD", "BUY", "1", "10", "0", none, 1⟩] :=
  ⟨(c6_collision_amended.1
      [⟨"A", "o1", none, "BTC-USD", "BUY", "LIMIT", "OPEN", some "10", none, "1",
        some "1", false, false, none, none, 1, 1⟩]
      ⟨"B", some "o1", none, some "ETH-USD", some "SELL", some "MARKET", some "FILLED",
       none, none, some "2", some "0", false, false, none, none, 8, 9⟩
      ⟨"A", "o1", none, "BTC-USD", "BUY", "LIMIT", "OPEN", some "10", none, "1",
       some "1", false, false, none, none, 1, 1⟩ "FILLED"
      (by decide) rfl rfl).1,
   c6_collision_amended.2
      [⟨"A", "f1", "o1", "BTC-USD", "BUY", "1", "10", "0", none, 1⟩] []
      ⟨"B", some "f1", some "o1", some "BTC-USD", some "SELL", some "1", some "10",
       "0", none, 2⟩
      ⟨"A", "f1", "o1", "BTC-USD", "BUY", "1", "10", "0", none, 1⟩
      (by decide) rfl⟩

/-- C7: re-running a sync with the same batch is a no-op on the
replace-wholesale categories, up to monotone timestamps.  For the browser
pass, the stored user-preference and trading-preference rows after the
second run equal those after the first up to `updated_at`, the affiliate
rows are strictly identical, and the balances table is untouched.  The
blockchain pass never modifies the store at all (its transaction always
rolls back), so it is vacuously idempotent; the balance upsert statement
itself, applied twice with the same record, changes nothing beyond
`last_updated`. -/
theorem c7_idempotence :
    (∀ (db : Db) (data : BrowserExport) (t1 t2 : Nat),
      ((syncBrowserData (syncBrowserData db data t1).2 data t2).2.userPreferences.map
          stripPrefRow
        = (syncBrowserData db data t1).2.userPreferences.map stripPrefRow) ∧
      ((syncBrowserData (syncBrowserData db data t1).2 data t2).2.tradingPreferences.map
          stripTradingRow
        = (syncBrowserData db data t1).2.tradingPreferences.map stripTradingRow) ∧
      ((syncBrowserData (syncBrowserData db data t1).2 data t2).2.affiliates
        = (syncBrowserData db data t1).2.affiliates) ∧
      ((syncBrowserData (syncBrowserData db data t1).2 data t2).2.accountBalances
        = (syncBrowserData db data t1).2.accountBalances)) ∧
    (∀ (db : Db) (b : BlockchainBatch) (t : Nat), (syncBlockchainTx db b t).2 = db) ∧
    (∀ (L : List BalanceRow) (rec : BalanceRec) (t1 t2 : Nat),
      (balanceUpsert (balanceUpsert L rec t1) rec t2).map stripBalanceRow
        = (balanceUpsert L rec t1).map stripBalanceRow) := by
  refine ⟨?_, ?_, balanceUpsert_strip_idem⟩
  · intro db data t1 t2
    unfold syncBrowserData
    cases hfp : findPrimaryWallet data.wallets with
    | none => exact ⟨rfl, rfl, rfl, rfl⟩
    | some pw =>
      cases hts : data.transfers with
      | some ts => simp [hts, transfersPrepareErr]
      | none =>
        cases hss : data.swaps with
        | some ss => simp [hts, hss, swapsPrepareErr]
        | none =>
          simp only [hts, hss, Option.isSome_none, Bool.false_eq_true, if_false]
          refine ⟨?_, ?_, ?_, ?_⟩
          · exact prefsApply_strip_idem _ _ _ _ _
          · exact tradingApply_strip_idem _ _ _ _ _
          · exact affApply_idem _ _ _ _ _
          · trivial
  · intro db b t
    exact (syncBlockchainTx_spec db b t).2

/-- C9: the primary wallet is chosen exactly by the spec's precedence
(dYdX-type, then EVM-type, then the first wallet), and every
preference/trading-preference/dismissed-item/affiliate row a pass adds or
rewrites carries that chosen address as its owning `wallet_address`; no
transfer or swap row is ever written by the pass (their statements cannot be
prepared), so the ownership claim holds for them vacuously. -/
theorem c9_primary_precedence_ownership :
    (∀ ws : List WalletInput, findPrimaryWallet ws = specPrimaryWallet ws) ∧
    (∀ (db : Db) (data : BrowserExport) (t : Nat),
      ((syncBrowserData db data t).2.transfers = db.transfers) ∧
      ((syncBrowserData db data t).2.swaps = db.swaps) ∧
      (∀ r ∈ (syncBrowserData db data t).2.userPreferences, r ∉ db.userPreferences →
        specPrimaryAddress data.wallets = some r.walletAddress) ∧
      (∀ r ∈ (syncBrowserData db data t).2.tradingPreferences, r ∉ db.tradingPreferences →
        specPrimaryAddress data.wallets = some r.walletAddress) ∧
      (∀ r ∈ (syncBrowserData db data t).2.dismissedItems, r ∉ db.dismissedItems →
        specPrimaryAddress data.wallets = some r.walletAddress) ∧
      (∀ r ∈ (syncBrowserData db data t).2.affiliates, r ∉ db.affiliates →
        specPrimaryAddress data.wallets = some r.walletAddress)) := by
  refine ⟨findPrimary_refines_spec, ?_⟩
  intro db data t
  have hspec : specPrimaryAddress data.wallets
      = (findPrimaryWallet data.wallets).map (fun w => w.address) := by
    rw [specPrimaryAddress, findPrimary_refines_spec]
  unfold syncBrowserData
  cases hfp : findPrimaryWallet data.wallets with
  | none =>
    refine ⟨rfl, rfl, ?_, ?_, ?_, ?_⟩ <;>
      · intro r hr hn
        exact absurd hr hn
  | some pw =>
    rw [hfp] at hspec
    cases hts : data.transfers with
    | some ts =>
      simp only [hts, Option.isSome_some, if_true, transfersPrepareErr]
      refine ⟨by trivial, by trivial, ?_, ?_, ?_, ?_⟩ <;>
        · intro r hr hn
          exact absurd hr hn
    | none =>
      cases hss : data.swaps with
      | some ss =>
        simp only [hts, hss, Option.isSome_none, Option.isSome_some,
          Bool.false_eq_true, if_false, if_true, swapsPrepareErr]
        refine ⟨by trivial, by trivial, ?_, ?_, ?_, ?_⟩ <;>
          · intro r hr hn
            exact absurd hr hn
      | none =>
        simp only [hts, hss, Option.isSome_none, Bool.false_eq_true, if_false]
        refine ⟨by trivial, by trivial, ?_, ?_, ?_, ?_⟩
        · intro r hr hn
          rw [hspec,
            prefsApply_new_addr db.userPreferences pw.address data.preferences t r hr hn]
          rfl
        · intro r hr hn
          rw [hspec,
            tradingApply_new_addr db.tradingPreferences pw.address
              data.tradingPreferences t r hr hn]
          rfl
        · intro r hr hn
          rw [hspec,
            dismissedApplyOpt_new_addr db.dismissedItems pw.address
              data.dismissedItems t r hr hn]
          rfl
        · intro r hr hn
          rw [hspec,
            affApply_new_addr db.affiliates pw.address data.affiliates t r hr hn]
          rfl

/-- Witness for C9's ownership part at a concrete committing pass. -/
theorem c9_primary_precedence_ownership_witness :
    specPrimaryAddress [⟨some "dydx", "A", some "c1"⟩]
      = some (⟨"A", none, none, none, false, false, none, 4, 4⟩ : PrefRow).walletAddress :=
  (c9_primary_precedence_ownership.2 emptyDb
      ⟨[⟨some "dydx", "A", some "c1"⟩], some ⟨none, none, none, false, false⟩,
       none, none, none, none, none⟩ 4).2.2.1
    ⟨"A", none, none, none, false, false, none, 4, 4⟩ (by decide) (by decide)

end BlackBottle
